import Mathlib

/-!
Shallow embedding of `src/bot.py` (Gendolf AI Bot): the usage-gating
bookkeeping (`UsageTracker`), the per-group conversation memory and the
AI call wrapper (`AIChat.respond`), and the quota gate of the message
handlers.  Python dicts with string keys are embedded as association
lists (`List (String × Nat)`), python sets as `List String` with
membership insertion, and the fallible parts (json parsing, the HTTP
call) by their outcome.
-/

namespace GendolfBot

/-- A python dict `str -> int` as an association list; `dictGet d k`
embeds `d.get(k, 0)`. -/
def dictGet (d : List (String × Nat)) (k : String) : Nat :=
  match d.find? (fun p => p.1 == k) with
  | some p => p.2
  | none => 0

/-- `d[k] = v` on a python dict: replace the binding when the key is
present, otherwise append a new binding. -/
def dictSet (d : List (String × Nat)) (k : String) (v : Nat) : List (String × Nat) :=
  if d.any (fun p => p.1 == k) then
    d.map (fun p => if p.1 == k then (k, v) else p)
  else
    d ++ [(k, v)]

/-- State of `UsageTracker` (bot.py lines 44-58): the counter table
`usage` keyed by `"<chatId>:<YYYY-MM-DD>"` and the `pro_groups` set of
stringified chat ids. -/
structure UsageTracker where
  usage : List (String × Nat)
  pro_groups : List String
deriving Repr, DecidableEq

/-- The counter key `f"{chat_id}:{today}"` (bot.py lines 72, 80). -/
def usageKey (chatId : Int) (today : String) : String :=
  toString chatId ++ ":" ++ today

/-- `UsageTracker.can_use` (bot.py lines 66-75): pro groups get
`(True, 999)`; otherwise `remaining = max(0, FREE_LIMIT - used)` and
`allowed = remaining > 0`.  `today` is the UTC date string computed at
call time; `FREE_LIMIT` is the configured daily ceiling. -/
def can_use (FREE_LIMIT : Nat) (t : UsageTracker) (chatId : Int) (today : String) :
    Bool × Int :=
  if toString chatId ∈ t.pro_groups then
    (true, 999)
  else
    let used : Int := dictGet t.usage (usageKey chatId today)
    let remaining : Int := max 0 ((FREE_LIMIT : Int) - used)
    (remaining > 0, remaining)

/-- `UsageTracker.record` (bot.py lines 77-82): increment today's
counter for the group by 1 (the synchronous `_save` only persists the
table and does not change it). -/
def record (t : UsageTracker) (chatId : Int) (today : String) : UsageTracker :=
  let key := usageKey chatId today
  { t with usage := dictSet t.usage key (dictGet t.usage key + 1) }

/-- `record` iterated `n` times for the same group and day. -/
def recordN (t : UsageTracker) (chatId : Int) (today : String) : Nat → UsageTracker
  | 0 => t
  | n + 1 => record (recordN t chatId today n) chatId today

/-- `UsageTracker.add_pro` (bot.py lines 84-87): add `str(chat_id)` to
the pro set (python `set.add`: no duplicate is created). -/
def add_pro (t : UsageTracker) (chatId : Int) : UsageTracker :=
  if toString chatId ∈ t.pro_groups then t
  else { t with pro_groups := t.pro_groups ++ [toString chatId] }

/-- Result record of `UsageTracker.get_stats`. -/
structure Stats where
  active_groups_today : Nat
  total_messages : Nat
  pro_groups : Nat
deriving Repr, DecidableEq

/-- `UsageTracker.get_stats` (bot.py lines 89-98): count keys ending in
`f":{today}"`, sum all counter values, and take the size of the pro
set. -/
def get_stats (t : UsageTracker) (today : String) : Stats where
  active_groups_today := t.usage.countP (fun p => p.1.endsWith (":" ++ today))
  total_messages := (t.usage.map (fun p => p.2)).sum
  pro_groups := t.pro_groups.length

/-- Outcome of reading-and-parsing one backing file: the file may be
missing, hold well-formed json for a value `v`, or hold malformed data
(on which the external `json.loads` raises). -/
inductive PyFile (α : Type) where
  | missing : PyFile α
  | wellFormed (v : α) : PyFile α
  | malformed : PyFile α
deriving Repr, DecidableEq

/-- One `if <file>.exists(): x = json.loads(<file>.read_text())` step of
`UsageTracker._load`: a missing file keeps the default, a well-formed
one yields its value, a malformed one raises (`json.loads` is external;
it is embedded by this contract). -/
def loadFilePart {α : Type} (f : PyFile α) (dflt : α) : Except Unit α :=
  match f with
  | .missing => .ok dflt
  | .wellFormed v => .ok v
  | .malformed => .error ()

/-- `UsageTracker._load` with `__init__`'s defaults (bot.py lines 47-58):
`usage = {}` and `pro_groups = set()` unless the backing files exist, in
which case their parsed contents replace the defaults; a json error
propagates out of `_load`. -/
def load (usageFile : PyFile (List (String × Nat)))
    (proFile : PyFile (List String)) : Except Unit UsageTracker := do
  let u ← loadFilePart usageFile []
  let p ← loadFilePart proFile []
  return ⟨u, p⟩

/-- One entry of a group's conversation memory (bot.py lines 120, 148):
either `{"role": "user", "name": ..., "content": ...}` or
`{"role": "assistant", "content": ...}`. -/
inductive Turn where
  | user (name : String) (content : String) : Turn
  | assistant (content : String) : Turn
deriving Repr, DecidableEq

/-- `AIChat.max_memory` (bot.py line 112). -/
def max_memory : Nat := 20

/-- The user-turn append at the top of `AIChat.respond` (bot.py lines
119-122): push the turn, then if the list length exceeds `max_memory`
keep only the last `max_memory` entries (`mem[-max_memory:]`).  The
embedding works on the single group's list `self.memory[chat_id]`,
the only one `respond` touches. -/
def appendUserTurn (mem : List Turn) (userName message : String) : List Turn :=
  let m := mem ++ [Turn.user userName message]
  if m.length > max_memory then m.drop (m.length - max_memory) else m

/-- One provider message `{"role": ..., "content": ...}`. -/
structure Msg where
  role : String
  content : String
deriving Repr, DecidableEq

/-- Formatting of one memory turn into a provider message (bot.py lines
134-137): user turns become `[name]: text` under role `"user"`,
assistant turns are passed as plain text under role `"assistant"`. -/
def formatTurn (t : Turn) : Msg :=
  match t with
  | .user name content => ⟨"user", "[" ++ name ++ "]: " ++ content⟩
  | .assistant content => ⟨"assistant", content⟩

/-- The message-list construction of `AIChat.respond` (bot.py lines
132-137): format the last 10 memory turns (`mem[-10:]`) in order. -/
def buildMessages (mem : List Turn) : List Msg :=
  (mem.drop (mem.length - 10)).map formatTurn

/-- The fixed fallback returned when the provider call raises
(bot.py line 153). -/
def fallbackText : String := "⚠️ AI temporarily unavailable. Try again in a moment."

/-- The fixed string for an unsupported provider value (bot.py line 145). -/
def unknownProviderText : String := "Unknown AI provider configured."

/-- What `AIChat.respond` produces: the returned reply text, the group's
memory afterwards, and the message list of the HTTP request when one was
issued (`none` when no call was attempted). -/
structure RespondResult where
  reply : String
  mem : List Turn
  sentMessages : Option (List Msg)
deriving Repr, DecidableEq

/-- `AIChat.respond` (bot.py lines 114-153) on one group's memory.
The external HTTP call (`_call_anthropic` / `_call_openai`) is embedded
by its outcome `call`: `.ok r` when it returns reply text `r`, `.error ()`
when it raises (network error, timeout, malformed response, non-success
status).  For `"anthropic"`/`"openai"` the call's result (or the
exception) decides the branch; any other provider string skips the call
and uses the fixed unknown-provider text.  A successful branch appends
the response as an assistant turn; the except-branch returns the
fallback without appending. -/
def respond (provider : String) (mem : List Turn) (userName message : String)
    (call : Except Unit String) : RespondResult :=
  let mem1 := appendUserTurn mem userName message
  let messages := buildMessages mem1
  if provider == "anthropic" || provider == "openai" then
    match call with
    | .ok resp =>
        ⟨resp, mem1 ++ [Turn.assistant resp], some messages⟩
    | .error _ =>
        ⟨fallbackText, mem1, some messages⟩
  else
    ⟨unknownProviderText, mem1 ++ [Turn.assistant unknownProviderText], none⟩

/-- The fixed quota-exceeded notice of `handle_message` (bot.py lines
369-372). -/
def quotaNotice (FREE_LIMIT : Nat) : String :=
  "⚠️ Daily free limit (" ++ toString FREE_LIMIT ++ ") reached for this group.\n"
    ++ "Admin can upgrade: /upgrade"

/-- What the quota-gated part of a message handler produces: the tracker
and the group's memory afterwards, the text sent back, and whether the
AI responder was called. -/
structure HandlerResult where
  tracker : UsageTracker
  mem : List Turn
  sent : String
  calledAI : Bool
deriving Repr, DecidableEq

/-- The quota gate shared by `handle_message` (bot.py lines 366-386) and
`cmd_ask` (lines 268-281): check `can_use`; if not allowed, send the
fixed quota-exceeded notice and stop; otherwise `record` the usage and
call `AIChat.respond`, replying with its result. -/
def handleGated (FREE_LIMIT : Nat) (t : UsageTracker) (mem : List Turn)
    (chatId : Int) (today : String) (provider userName text : String)
    (call : Except Unit String) : HandlerResult :=
  let allowed := (can_use FREE_LIMIT t chatId today).1
  if allowed then
    let t1 := record t chatId today
    let r := respond provider mem userName text call
    ⟨t1, r.mem, r.reply, true⟩
  else
    ⟨t, mem, quotaNotice FREE_LIMIT, false⟩

/-- Memory of one group after `n` successive successful `respond` calls
starting from empty memory (each call: provider `"anthropic"`, a user
turn, a successful HTTP outcome). -/
def iterRespond : Nat → List Turn
  | 0 => []
  | n + 1 => (respond "anthropic" (iterRespond n) "Alice" "hi" (Except.ok "hello")).mem

/-! ## Helper lemmas -/

theorem dictGet_nil (k : String) : dictGet [] k = 0 := rfl

theorem dictGet_cons (p : String × Nat) (rest : List (String × Nat)) (k : String) :
    dictGet (p :: rest) k = if p.1 = k then p.2 else dictGet rest k := by
  cases hb : (p.1 == k) with
  | true =>
      have h : p.1 = k := by simpa using hb
      simp only [dictGet, List.find?_cons, hb, if_pos h]
  | false =>
      have h : ¬ p.1 = k := by simpa using hb
      simp only [dictGet, List.find?_cons, hb, if_neg h]

theorem dictGet_append_single (d : List (String × Nat)) (k q : String) (v : Nat) :
    dictGet (d ++ [(k, v)]) q =
      if (d.find? (fun p => p.1 == q)).isSome then dictGet d q
      else if k = q then v else 0 := by
  induction d with
  | nil => simp [dictGet_nil, dictGet_cons, List.find?]
  | cons p rest ih =>
    by_cases h : p.1 = q
    · simp [dictGet_cons, h, List.find?_cons_of_pos]
    · rw [List.cons_append, dictGet_cons, if_neg h, dictGet_cons, if_neg h, ih,
        List.find?_cons_of_neg _ (by simpa using h)]

theorem dictGet_dictSet_self (d : List (String × Nat)) (k : String) (v : Nat) :
    dictGet (dictSet d k v) k = v := by
  unfold dictSet
  by_cases h : d.any (fun p => p.1 == k)
  · rw [if_pos h]
    induction d with
    | nil => simp at h
    | cons p rest ih =>
      by_cases hp : p.1 = k
      · simp [dictGet_cons, hp]
      · simp only [List.any_cons, Bool.or_eq_true, beq_iff_eq] at h
        rcases h with h | h
        · exact absurd h hp
        · rw [List.map_cons, if_neg (by simpa using hp), dictGet_cons, if_neg hp]
          exact ih (by simpa using h)
  · rw [if_neg h]
    rw [dictGet_append_single]
    have hfind : (d.find? (fun p => p.1 == k)) = none := by
      rw [List.find?_eq_none]
      intro p hp
      simp only [List.any_eq_true, not_exists, not_and] at h
      simpa using h p hp
    simp [hfind]

theorem dictGet_dictSet_ne (d : List (String × Nat)) (k q : String) (v : Nat)
    (h : q ≠ k) : dictGet (dictSet d k v) q = dictGet d q := by
  unfold dictSet
  by_cases ha : d.any (fun p => p.1 == k)
  · rw [if_pos ha]
    clear ha
    induction d with
    | nil => rfl
    | cons p rest ih =>
      by_cases hp : p.1 = k
      · rw [List.map_cons, if_pos (by simpa using hp), dictGet_cons, dictGet_cons,
          if_neg (show ¬(k, v).1 = q from fun hc => h hc.symm),
          if_neg (show ¬p.1 = q from fun hc => h ((hp ▸ hc : k = q)).symm)]
        exact ih
      · rw [List.map_cons, if_neg (by simpa using hp), dictGet_cons, dictGet_cons]
        by_cases hq : p.1 = q
        · simp [hq]
        · rw [if_neg hq, if_neg hq]; exact ih
  · rw [if_neg ha, dictGet_append_single]
    by_cases hf : (d.find? (fun p => p.1 == q)).isSome
    · rw [if_pos hf]
    · rw [if_neg hf, if_neg (show ¬k = q from fun hc => h hc.symm)]
      simp only [Option.isSome_iff_exists, not_exists] at hf
      unfold dictGet
      cases hfind : d.find? (fun p => p.1 == q) with
      | none => rfl
      | some p => exact absurd hfind (hf p)

theorem usageKey_ne_of_day_ne (g : Int) (d d' : String) (h : d ≠ d') :
    usageKey g d ≠ usageKey g d' := by
  intro hc
  have hdata := congrArg String.data hc
  simp only [usageKey, String.data_append, List.append_assoc] at hdata
  exact h (String.ext (List.append_cancel_left (List.append_cancel_left hdata)))

theorem recordN_pro_groups (t : UsageTracker) (g : Int) (d : String) (n : Nat) :
    (recordN t g d n).pro_groups = t.pro_groups := by
  induction n with
  | zero => rfl
  | succ n ih => simp only [recordN, record, ih]

theorem recordN_usage_self (t : UsageTracker) (g : Int) (d : String) (n : Nat) :
    dictGet (recordN t g d n).usage (usageKey g d) =
      dictGet t.usage (usageKey g d) + n := by
  induction n with
  | zero => rfl
  | succ n ih =>
    simp only [recordN, record, dictGet_dictSet_self, ih]
    omega

theorem recordN_usage_ne (t : UsageTracker) (g : Int) (d : String) (n : Nat)
    (k : String) (h : k ≠ usageKey g d) :
    dictGet (recordN t g d n).usage k = dictGet t.usage k := by
  induction n with
  | zero => rfl
  | succ n ih => simp only [recordN, record, dictGet_dictSet_ne _ _ _ _ h, ih]

theorem mem_add_pro (t : UsageTracker) (g : Int) :
    toString g ∈ (add_pro t g).pro_groups := by
  unfold add_pro
  by_cases h : toString g ∈ t.pro_groups
  · rw [if_pos h]; exact h
  · rw [if_neg h]; simp

/-! ## Claims -/

/-- C1: for every group not in the pro set with no usage yet recorded for
the day, after exactly `FREE_LIMIT` recorded messages on that same UTC
day `can_use` returns `(false, 0)` — `remaining = max(0, FREE_LIMIT -
count)` hits `0` and `allowed = remaining > 0` is `false`, so the
`FREE_LIMIT + 1`-th attempt is rejected. -/
theorem canUse_rejects_after_freeLimit (L : Nat) (t : UsageTracker) (g : Int)
    (d : String) (hpro : toString g ∉ t.pro_groups)
    (h0 : dictGet t.usage (usageKey g d) = 0) :
    can_use L (recordN t g d L) g d = (false, 0) := by
  have hused : dictGet (recordN t g d L).usage (usageKey g d) = L := by
    rw [recordN_usage_self, h0, Nat.zero_add]
  simp only [can_use, recordN_pro_groups, if_neg hpro, hused]
  norm_num

/-- Witness for C1 at the spec's scenario (limit 2, fresh group 1): both
hypotheses hold and the conclusion follows by the theorem. -/
theorem canUse_rejects_after_freeLimit_witness :
    toString (1 : Int) ∉ (UsageTracker.mk [] []).pro_groups
    ∧ dictGet (UsageTracker.mk [] []).usage (usageKey 1 "2025-01-01") = 0
    ∧ can_use 2 (recordN (UsageTracker.mk [] []) 1 "2025-01-01" 2) 1 "2025-01-01"
        = (false, 0) :=
  ⟨by decide, by decide,
    canUse_rejects_after_freeLimit 2 (UsageTracker.mk [] []) 1 "2025-01-01"
      (by decide) (by decide)⟩

/-- C2: a group in the pro set always gets `(true, 999)` from `can_use`,
whatever the counter table and the day — the pro check is the first
branch of every quota decision — and after `add_pro g` (even on a group
with exhausted quota) `can_use` gives `(true, 999)`. -/
theorem pro_groups_unlimited (L : Nat) (t : UsageTracker) (g : Int) (d : String) :
    (toString g ∈ t.pro_groups → can_use L t g d = (true, 999))
    ∧ can_use L (add_pro t g) g d = (true, 999) := by
  refine ⟨fun h => ?_, ?_⟩
  · simp only [can_use, if_pos h]
  · simp only [can_use, if_pos (mem_add_pro t g)]

/-- Witness for C2 at the spec's scenario: limit 2, two records exhaust
group 1's quota, then `add_pro` makes `can_use` return `(true, 999)`. -/
theorem pro_groups_unlimited_witness :
    toString (1 : Int) ∈ (add_pro (recordN (UsageTracker.mk [] []) 1 "2025-01-01" 2) 1).pro_groups
    ∧ can_use 2 (add_pro (recordN (UsageTracker.mk [] []) 1 "2025-01-01" 2) 1) 1 "2025-01-01"
        = (true, 999) :=
  ⟨by decide,
    (pro_groups_unlimited 2 (add_pro (recordN (UsageTracker.mk [] []) 1 "2025-01-01" 2) 1)
      1 "2025-01-01").1 (by decide)⟩

/-- C5: `record` is monotonic and per-day-keyed — from a state with no
count yet for `(g, d)` nor for `(g, dNext)`, `N` records on day `d`
store exactly `N` under the key for `(g, d)`, leave every other key
unchanged, and `can_use` on the next day `dNext` shows the full
remaining quota `FREE_LIMIT` (allowed whenever the limit is positive). -/
theorem record_monotonic_and_day_keyed (L N : Nat) (t : UsageTracker) (g : Int)
    (d dNext : String) (hpro : toString g ∉ t.pro_groups)
    (h0 : dictGet t.usage (usageKey g d) = 0)
    (hnext : dictGet t.usage (usageKey g dNext) = 0)
    (hday : dNext ≠ d) :
    dictGet (recordN t g d N).usage (usageKey g d) = N
    ∧ (∀ k, k ≠ usageKey g d →
        dictGet (recordN t g d N).usage k = dictGet t.usage k)
    ∧ can_use L (recordN t g d N) g dNext = (decide ((0 : Int) < (L : Int)), (L : Int)) := by
  refine ⟨?_, ?_, ?_⟩
  · rw [recordN_usage_self, h0, Nat.zero_add]
  · exact fun k hk => recordN_usage_ne t g d N k hk
  · have hkeys : usageKey g dNext ≠ usageKey g d := usageKey_ne_of_day_ne g dNext d hday
    have hu : dictGet (recordN t g d N).usage (usageKey g dNext) = 0 := by
      rw [recordN_usage_ne t g d N _ hkeys, hnext]
    simp only [can_use, recordN_pro_groups, if_neg hpro, hu]
    norm_num

/-- Witness for C5: three records on 2025-01-01 for group 1 give count 3,
other keys untouched, and full quota 50 on 2025-01-02. -/
theorem record_monotonic_and_day_keyed_witness :
    toString (1 : Int) ∉ (UsageTracker.mk [] []).pro_groups
    ∧ dictGet (UsageTracker.mk [] []).usage (usageKey 1 "2025-01-01") = 0
    ∧ dictGet (UsageTracker.mk [] []).usage (usageKey 1 "2025-01-02") = 0
    ∧ "2025-01-02" ≠ "2025-01-01"
    ∧ (dictGet (recordN (UsageTracker.mk [] []) 1 "2025-01-01" 3).usage (usageKey 1 "2025-01-01") = 3
        ∧ (∀ k, k ≠ usageKey 1 "2025-01-01" →
            dictGet (recordN (UsageTracker.mk [] []) 1 "2025-01-01" 3).usage k
              = dictGet (UsageTracker.mk [] []).usage k)
        ∧ can_use 50 (recordN (UsageTracker.mk [] []) 1 "2025-01-01" 3) 1 "2025-01-02"
            = (decide ((0 : Int) < ((50 : Nat) : Int)), ((50 : Nat) : Int))) :=
  ⟨by decide, by decide, by decide, by decide,
    record_monotonic_and_day_keyed 50 3 (UsageTracker.mk [] []) 1 "2025-01-01" "2025-01-02"
      (by decide) (by decide) (by decide) (by decide)⟩

/-- C8: on a counter table with distinct keys (what a python dict
guarantees), `get_stats` returns the number of distinct keys whose date
suffix is today (as card of the deduplicated filtered key list), the sum
of all counter values over all days, and the size of the pro set. -/
theorem get_stats_correct (t : UsageTracker) (today : String)
    (h : (t.usage.map Prod.fst).Nodup) :
    (get_stats t today).active_groups_today
      = ((t.usage.map Prod.fst).filter (fun k => k.endsWith (":" ++ today))).toFinset.card
    ∧ (get_stats t today).total_messages = (t.usage.map Prod.snd).sum
    ∧ (get_stats t today).pro_groups = t.pro_groups.length := by
  refine ⟨?_, rfl, rfl⟩
  rw [List.toFinset_card_of_nodup (h.filter _), ← List.countP_eq_length_filter,
    List.countP_map]
  rfl

/-- Witness for C8 on a two-day table: one key for today 2025-01-02, one
for the previous day, values 7 and 2, one pro group. -/
theorem get_stats_correct_witness :
    ((UsageTracker.mk [("1:2025-01-01", 7), ("1:2025-01-02", 2)] ["5"]).usage.map Prod.fst).Nodup
    ∧ ((get_stats (UsageTracker.mk [("1:2025-01-01", 7), ("1:2025-01-02", 2)] ["5"]) "2025-01-02").active_groups_today
        = (((UsageTracker.mk [("1:2025-01-01", 7), ("1:2025-01-02", 2)] ["5"]).usage.map Prod.fst).filter
            (fun k => k.endsWith (":" ++ "2025-01-02"))).toFinset.card
      ∧ (get_stats (UsageTracker.mk [("1:2025-01-01", 7), ("1:2025-01-02", 2)] ["5"]) "2025-01-02").total_messages
          = (((UsageTracker.mk [("1:2025-01-01", 7), ("1:2025-01-02", 2)] ["5"]).usage.map Prod.snd)).sum
      ∧ (get_stats (UsageTracker.mk [("1:2025-01-01", 7), ("1:2025-01-02", 2)] ["5"]) "2025-01-02").pro_groups
          = (UsageTracker.mk [("1:2025-01-01", 7), ("1:2025-01-02", 2)] ["5"]).pro_groups.length) :=
  ⟨by decide,
    get_stats_correct (UsageTracker.mk [("1:2025-01-01", 7), ("1:2025-01-02", 2)] ["5"])
      "2025-01-02" (by decide)⟩

/-- C7 counterexample: loading is not total — a malformed usage file
makes `_load` raise (the `json.loads` error propagates), so "loading
never fails" is false. -/
theorem load_malformed_raises :
    load (PyFile.malformed) (PyFile.missing) = Except.error () := rfl

/-- C7 amended: a missing backing file is treated as empty with no
error, but a malformed file makes the load fail (the parse error is not
caught). -/
theorem load_missing_empty_malformed_fails :
    load PyFile.missing PyFile.missing = Except.ok (UsageTracker.mk [] [])
    ∧ (∀ u : List (String × Nat),
        load (PyFile.wellFormed u) PyFile.missing = Except.ok (UsageTracker.mk u []))
    ∧ (∀ p : List String,
        load PyFile.missing (PyFile.wellFormed p) = Except.ok (UsageTracker.mk [] p))
    ∧ (∀ pf, load PyFile.malformed pf = Except.error ())
    ∧ (∀ uf, uf ≠ PyFile.malformed → load uf PyFile.malformed = Except.error ()) := by
  refine ⟨rfl, fun u => rfl, fun p => rfl, fun pf => rfl, fun uf h => ?_⟩
  cases uf with
  | missing => rfl
  | wellFormed u => rfl
  | malformed => exact absurd rfl h

/-- Witness for C7's amended statement at a concrete malformed pro
file. -/
theorem load_missing_empty_malformed_fails_witness :
    (PyFile.missing : PyFile (List (String × Nat))) ≠ PyFile.malformed
    ∧ load (PyFile.missing) (PyFile.malformed) = Except.error () :=
  ⟨by decide,
    (load_missing_empty_malformed_fails).2.2.2.2 PyFile.missing (by decide)⟩

theorem length_appendUserTurn_le (mem : List Turn) (u m : String) :
    (appendUserTurn mem u m).length ≤ max_memory := by
  simp only [appendUserTurn]
  by_cases h : (mem ++ [Turn.user u m]).length > max_memory
  · rw [if_pos h, List.length_drop]
    omega
  · rw [if_neg h]
    omega

theorem appendUserTurn_eq_drop (mem : List Turn) (u m : String) :
    appendUserTurn mem u m
      = (mem ++ [Turn.user u m]).drop ((mem.length + 1) - max_memory) := by
  simp only [appendUserTurn]
  have hlen : (mem ++ [Turn.user u m]).length = mem.length + 1 := by simp
  rw [hlen]
  by_cases h : mem.length + 1 > max_memory
  · rw [if_pos h]
  · rw [if_neg h]
    have h0 : mem.length + 1 - max_memory = 0 := by omega
    rw [h0, List.drop_zero]

theorem respond_mem_cases (p : String) (mem : List Turn) (u m : String)
    (c : Except Unit String) :
    (respond p mem u m c).mem = appendUserTurn mem u m
    ∨ ∃ r, (respond p mem u m c).mem = appendUserTurn mem u m ++ [Turn.assistant r] := by
  simp only [respond]
  by_cases h : (p == "anthropic" || p == "openai") = true
  · rw [if_pos h]
    cases c with
    | ok r => exact Or.inr ⟨r, rfl⟩
    | error e => exact Or.inl rfl
  · rw [if_neg h]
    exact Or.inr ⟨unknownProviderText, rfl⟩

theorem getLast?_appendUserTurn (mem : List Turn) (u m : String) :
    (appendUserTurn mem u m).getLast? = some (Turn.user u m) := by
  rw [appendUserTurn_eq_drop]
  have hmax : 1 ≤ max_memory := by decide
  have hk : (mem.length + 1) - max_memory ≤ mem.length := by omega
  rw [List.drop_append_of_le_length hk]
  exact List.getLast?_concat _

/-- C3 counterexample: after 11 successful `respond` calls starting from
empty memory, the group's memory holds 21 turns between calls — more
than the configured cap `max_memory = 20` (the assistant-turn append is
not followed by a truncation). -/
theorem memory_exceeds_cap_between_responds :
    max_memory < (iterRespond 11).length := by decide

/-- C3 amended: between `respond` calls a group's memory holds at most
`max_memory + 1 = 21` turns (the user-turn append truncates to the cap,
but the assistant-turn append can exceed it by one); the truncation
drops the oldest entries first — the surviving turns are exactly the
most recent ones, in order — and `respond` only ever appends at most one
assistant turn after that. -/
theorem respond_memory_bound (p : String) (mem : List Turn) (u m : String)
    (c : Except Unit String) :
    (respond p mem u m c).mem.length ≤ max_memory + 1
    ∧ appendUserTurn mem u m
        = (mem ++ [Turn.user u m]).drop ((mem.length + 1) - max_memory)
    ∧ ∃ tail : List Turn, tail.length ≤ 1
        ∧ (respond p mem u m c).mem = appendUserTurn mem u m ++ tail := by
  have hlen := length_appendUserTurn_le mem u m
  rcases respond_mem_cases p mem u m c with h | ⟨r, h⟩
  · refine ⟨by rw [h]; omega, appendUserTurn_eq_drop mem u m,
      ⟨[], by simp, by rw [h, List.append_nil]⟩⟩
  · refine ⟨?_, appendUserTurn_eq_drop mem u m,
      ⟨[Turn.assistant r], by simp, h⟩⟩
    rw [h, List.length_append, List.length_cons, List.length_nil]
    omega

/-- C4: when the provider call raises, `respond` returns the fixed
fallback text (it is total, so nothing propagates to the caller), issues
the request it had built, and the memory afterwards is exactly the
post-user-append list: the user turn appended before the call remains
(it is the last entry) and no assistant turn is added. -/
theorem respond_exception_fallback (p : String) (mem : List Turn) (u m : String)
    (hp : p = "anthropic" ∨ p = "openai") :
    respond p mem u m (Except.error ())
      = ⟨fallbackText, appendUserTurn mem u m,
          some (buildMessages (appendUserTurn mem u m))⟩
    ∧ (appendUserTurn mem u m).getLast? = some (Turn.user u m) := by
  have hb : (p == "anthropic" || p == "openai") = true := by
    rcases hp with h | h <;> simp [h]
  exact ⟨by simp only [respond, hb, if_true], getLast?_appendUserTurn mem u m⟩

/-- Witness for C4: a concrete failed anthropic call from empty memory
returns the fallback and leaves only the user turn in memory. -/
theorem respond_exception_fallback_witness :
    ("anthropic" = "anthropic" ∨ "anthropic" = "openai")
    ∧ (respond "anthropic" [] "Alice" "hi" (Except.error ())
        = ⟨fallbackText, appendUserTurn [] "Alice" "hi",
            some (buildMessages (appendUserTurn [] "Alice" "hi"))⟩
      ∧ (appendUserTurn [] "Alice" "hi").getLast? = some (Turn.user "Alice" "hi")) :=
  ⟨Or.inl rfl, respond_exception_fallback "anthropic" [] "Alice" "hi" (Or.inl rfl)⟩

/-- C6: on a supported provider, the message list `respond` sends is
built from the post-append memory by `buildMessages`, which takes at
most the last 10 stored turns in chronological order (a suffix of the
memory, most recent last), formats user turns as `[name]: text` and
passes assistant turns as plain text. -/
theorem respond_context_window (p : String) (mem : List Turn) (u m : String)
    (c : Except Unit String) (hp : p = "anthropic" ∨ p = "openai") :
    (respond p mem u m c).sentMessages = some (buildMessages (appendUserTurn mem u m))
    ∧ (∀ l : List Turn, (buildMessages l).length ≤ 10
        ∧ buildMessages l = (l.drop (l.length - 10)).map formatTurn
        ∧ l.take (l.length - 10) ++ l.drop (l.length - 10) = l)
    ∧ (∀ name text, formatTurn (Turn.user name text)
        = ⟨"user", "[" ++ name ++ "]: " ++ text⟩)
    ∧ (∀ text, formatTurn (Turn.assistant text) = ⟨"assistant", text⟩) := by
  have hb : (p == "anthropic" || p == "openai") = true := by
    rcases hp with h | h <;> simp [h]
  refine ⟨?_, ?_, fun name text => rfl, fun text => rfl⟩
  · simp only [respond, hb, if_true]
    cases c with
    | ok r => rfl
    | error e => rfl
  · intro l
    refine ⟨?_, rfl, List.take_append_drop _ l⟩
    rw [buildMessages, List.length_map, List.length_drop]
    omega

/-- Witness for C6: a successful openai call from a one-turn memory
sends the two formatted turns. -/
theorem respond_context_window_witness :
    ("openai" = "anthropic" ∨ "openai" = "openai")
    ∧ (respond "openai" [Turn.assistant "yo"] "Bob" "hey" (Except.ok "sup")).sentMessages
        = some (buildMessages (appendUserTurn [Turn.assistant "yo"] "Bob" "hey")) :=
  ⟨Or.inr rfl,
    (respond_context_window "openai" [Turn.assistant "yo"] "Bob" "hey"
      (Except.ok "sup") (Or.inr rfl)).1⟩

/-- C9: when `can_use` says the quota is exhausted, the handler's quota
gate sends the fixed quota-exceeded notice and stops: the tracker is
unchanged (no `record`), the conversation memory is unchanged, and the
AI responder is not called. -/
theorem handler_stops_on_exhausted_quota (L : Nat) (t : UsageTracker)
    (mem : List Turn) (g : Int) (d p u x : String) (c : Except Unit String)
    (h : (can_use L t g d).1 = false) :
    handleGated L t mem g d p u x c = ⟨t, mem, quotaNotice L, false⟩ := by
  simp only [handleGated, h, Bool.false_eq_true, if_false]

/-- Witness for C9: group 1 with both free messages of a limit of 2
consumed; the gate leaves tracker and memory unchanged and does not call
the AI. -/
theorem handler_stops_on_exhausted_quota_witness :
    (can_use 2 (UsageTracker.mk [("1:2025-01-01", 2)] []) 1 "2025-01-01").1 = false
    ∧ handleGated 2 (UsageTracker.mk [("1:2025-01-01", 2)] []) [Turn.assistant "yo"]
        1 "2025-01-01" "anthropic" "Alice" "hi" (Except.ok "sup")
        = ⟨UsageTracker.mk [("1:2025-01-01", 2)] [], [Turn.assistant "yo"],
            quotaNotice 2, false⟩ :=
  ⟨by decide,
    handler_stops_on_exhausted_quota 2 (UsageTracker.mk [("1:2025-01-01", 2)] [])
      [Turn.assistant "yo"] 1 "2025-01-01" "anthropic" "Alice" "hi"
      (Except.ok "sup") (by decide)⟩

/-- C10: on an unsupported provider value, `respond` makes no HTTP call
(`sentMessages = none`), returns the fixed unknown-provider text, and —
unlike the exception path — still appends that text to memory as an
assistant turn after the appended user turn, so it lands in the next
call's context window (it is among the formatted last-10 messages of the
resulting memory). -/
theorem respond_unknown_provider (p : String) (mem : List Turn) (u m : String)
    (c : Except Unit String) (hp1 : p ≠ "anthropic") (hp2 : p ≠ "openai") :
    respond p mem u m c
      = ⟨unknownProviderText,
          appendUserTurn mem u m ++ [Turn.assistant unknownProviderText], none⟩
    ∧ Msg.mk "assistant" unknownProviderText
        ∈ buildMessages (appendUserTurn mem u m ++ [Turn.assistant unknownProviderText]) := by
  have hb : (p == "anthropic" || p == "openai") = false := by
    simp [hp1, hp2]
  refine ⟨by simp only [respond, hb, Bool.false_eq_true, if_false], ?_⟩
  rw [buildMessages]
  have hk : (appendUserTurn mem u m ++ [Turn.assistant unknownProviderText]).length - 10
      ≤ (appendUserTurn mem u m).length := by
    rw [List.length_append, List.length_cons, List.length_nil]
    omega
  rw [List.drop_append_of_le_length hk]
  simp [formatTurn]

/-- Witness for C10: provider "gemini" from empty memory. -/
theorem respond_unknown_provider_witness :
    "gemini" ≠ "anthropic"
    ∧ "gemini" ≠ "openai"
    ∧ respond "gemini" [] "Alice" "hi" (Except.ok "ignored")
        = ⟨unknownProviderText,
            appendUserTurn [] "Alice" "hi" ++ [Turn.assistant unknownProviderText], none⟩ :=
  ⟨by decide, by decide,
    (respond_unknown_provider "gemini" [] "Alice" "hi" (Except.ok "ignored")
      (by decide) (by decide)).1⟩

end GendolfBot
